import Mathlib

set_option maxHeartbeats 1000000
set_option maxRecDepth 4000

/-!
Shallow embedding of the speed-test engine in `src/speedtest-clone.tsx`.

Modelling conventions:
* JavaScript finite numbers are modelled as rationals (`ℚ`).  All numbers that
  reach the functions below come either from literals in the source or from
  `JSON.parse` (which can only produce finite numbers), so no separate
  NaN/Infinity constructor is needed except where a division by zero can occur
  (see `JSNumV` for the throughput formula).
* `value.toFixed(1)` produces the decimal string of the value rounded to one
  decimal; we model it by the rounded rational (`toFixed1`), since each such
  string denotes exactly one rational with one decimal digit.
* React `useState` values are collected in one record (`SessionState`); a
  `setX(v)` call is a functional record update.  An async handler captures the
  state values of the render in which it was created, so reads of `ping`,
  `downloadSpeed`, `uploadSpeed` inside `startTest`'s catch block see the
  values from the moment of invocation (the `s0` snapshot), not the current
  ones; the model threads that snapshot explicitly.
-/

/-- The current test stage, the code's union type
`"idle" | "ping" | "download" | "upload" | "complete"` (line 22).
Note that the source has no distinct aborted or failed stage value. -/
inductive Stage
  | idle
  | ping
  | download
  | upload
  | complete
deriving DecidableEq, Repr

/-- A displayed metric string.  The code stores metrics as strings: `"-"`
(unset), `"N/A"`, `"--"`, or a decimal number produced by `toFixed(1)`;
`nanStr`/`infStr` stand for the strings `"NaN"`/`"Infinity"` that
`toFixed` produces on non-finite numbers. -/
inductive Metric
  | unset
  | na
  | err
  | nanStr
  | infStr
  | val (q : ℚ)
deriving DecidableEq, Repr

/-- One successful latency probe: the capped RTT pushed into `pingResults`
and the endpoint weight pushed with it into `weightedResults`
(lines 479-483). -/
structure WeightedSample where
  value : ℚ
  weight : ℚ
deriving DecidableEq, Repr

/-- The `TestResult` interface (lines 8-17).  `timestamp` is modelled by its
serialized string. -/
structure TestResult where
  id : String
  ping : ℚ
  download : ℚ
  upload : ℚ
  location : String
  provider : String
  ip : String
  timestamp : String
deriving DecidableEq, Repr

/-- The `serverInfo` state record (lines 37-41). -/
structure ServerInfo where
  provider : String
  location : String
  ip : String
deriving DecidableEq, Repr

/-- The component's mutable state relevant to the engine: the `useState`
fields of lines 21-31 plus the abort-controller ref (line 34). -/
structure SessionState where
  isTesting : Bool
  currentTest : Stage
  progress : ℤ
  testStatus : String
  ping : Metric
  downloadSpeed : Metric
  uploadSpeed : Metric
  testHistory : List TestResult
  hasAbortController : Bool
deriving DecidableEq, Repr

/-- The initial component state (lines 21-34): not testing, idle, progress 0,
status "Ready to test your speed", all metrics `'-'`, empty history, no
abort controller. -/
def initialState : SessionState :=
  { isTesting := false
    currentTest := Stage.idle
    progress := 0
    testStatus := "Ready to test your speed"
    ping := Metric.unset
    downloadSpeed := Metric.unset
    uploadSpeed := Metric.unset
    testHistory := []
    hasAbortController := false }

/-- `x.toFixed(1)` on a finite number: the value rounded to one decimal
(JavaScript rounds half away from zero; for the nonnegative values handled
here this coincides with `round x = ⌊x + 1/2⌋`). -/
def toFixed1 (q : ℚ) : ℚ :=
  ((round (q * 10) : ℤ) : ℚ) / 10

/-- `updateOverallProgress` (lines 347-352):
`Math.round(stageStart + (stageEnd - stageStart) * (stageProgress / 100))`.
`Math.round x = ⌊x + 1/2⌋`, which is Mathlib's `round`. -/
def updateOverallProgress (stageStart stageEnd : ℤ) (stageProgress : ℚ) : ℤ :=
  round ((stageStart : ℚ) + ((stageEnd : ℚ) - (stageStart : ℚ)) * (stageProgress / 100))

/-- Insert into an ascending list of rationals (helper for `sortAsc`). -/
def insertAsc (x : ℚ) : List ℚ → List ℚ
  | [] => [x]
  | y :: ys => if x ≤ y then x :: y :: ys else y :: insertAsc x ys

/-- `array.sort((a, b) => a - b)` on numbers (line 526), as insertion sort. -/
def sortAsc : List ℚ → List ℚ
  | [] => []
  | x :: xs => insertAsc x (sortAsc xs)

/-- Insert into a list of samples ascending by `.value` (helper). -/
def insertByValue (x : WeightedSample) : List WeightedSample → List WeightedSample
  | [] => [x]
  | y :: ys => if x.value ≤ y.value then x :: y :: ys else y :: insertByValue x ys

/-- `[...weightedResults].sort((a, b) => a.value - b.value)` (line 566). -/
def sortByValue : List WeightedSample → List WeightedSample
  | [] => []
  | x :: xs => insertByValue x (sortByValue xs)

/-- `Σ value * weight` over a sample list — the `reduce` of line 542. -/
def sampleWeightedSum : List WeightedSample → ℚ
  | [] => 0
  | s :: rest => s.value * s.weight + sampleWeightedSum rest

/-- `Σ weight` over a sample list — the `reduce` of line 543. -/
def sampleWeightSum : List WeightedSample → ℚ
  | [] => 0
  | s :: rest => s.weight + sampleWeightSum rest

/-- `Σ value * (weight * (idx+1)/n)` starting at index `i` — the live-preview
weighted sum of lines 494-499 (`recencyWeight = (idx + 1) / length`). -/
def recencyWeightedSumFrom : ℚ → ℕ → List WeightedSample → ℚ
  | _, _, [] => 0
  | n, i, s :: rest =>
      s.value * (s.weight * (((i : ℚ) + 1) / n)) + recencyWeightedSumFrom n (i + 1) rest

/-- `Σ weight * (idx+1)/n` starting at index `i` — lines 501-504. -/
def recencyWeightSumFrom : ℚ → ℕ → List WeightedSample → ℚ
  | _, _, [] => 0
  | n, i, s :: rest =>
      s.weight * (((i : ℚ) + 1) / n) + recencyWeightSumFrom n (i + 1) rest

/-- The live intermediate weighted average published after each successful
probe (lines 492-507). -/
def recencyWeightedAvg (ws : List WeightedSample) : ℚ :=
  recencyWeightedSumFrom (ws.length : ℚ) 0 ws / recencyWeightSumFrom (ws.length : ℚ) 0 ws

/-- The sorted raw RTTs, `pingValues` of lines 525-526. -/
def pingSortedValues (weightedResults : List WeightedSample) : List ℚ :=
  sortAsc (weightedResults.map (fun w => w.value))

/-- `lowerBound = Math.max(0, q1 - 1.5 * iqr)` with
`q1 = pingValues[Math.floor(n * 0.25)]`, `q3 = pingValues[Math.floor(n * 0.75)]`
(lines 529-532).  `Math.floor (n * 0.25) = n / 4` and
`Math.floor (n * 0.75) = 3 * n / 4` in natural division (0.25 and 0.75 are
dyadic, so the float products are exact). -/
def pingLowerBound (weightedResults : List WeightedSample) : ℚ :=
  let pingValues := pingSortedValues weightedResults
  let n := pingValues.length
  let q1 := pingValues.getD (n / 4) 0
  let q3 := pingValues.getD (3 * n / 4) 0
  max 0 (q1 - 3 / 2 * (q3 - q1))

/-- `upperBound = q3 + 1.5 * iqr` (line 533). -/
def pingUpperBound (weightedResults : List WeightedSample) : ℚ :=
  let pingValues := pingSortedValues weightedResults
  let n := pingValues.length
  let q1 := pingValues.getD (n / 4) 0
  let q3 := pingValues.getD (3 * n / 4) 0
  q3 + 3 / 2 * (q3 - q1)

/-- The IQR outlier filter of lines 536-538: keep the weighted samples whose
value lies within `[lowerBound, upperBound]`. -/
def pingIQRFilter (weightedResults : List WeightedSample) : List WeightedSample :=
  weightedResults.filter (fun it =>
    decide (pingLowerBound weightedResults ≤ it.value) &&
    decide (it.value ≤ pingUpperBound weightedResults))

/-- The final ping value computed by the statistical block of lines 522-578
(as a rational; the code turns it into a string with `toFixed(1)`):
* `≥ 3` samples: IQR-filter, then weighted mean, then the connection-type
  adjustment (`× 0.95` if more than half the raw samples are below 20 ms,
  `× 1.05` if more than 30% are above 100 ms), rounded to one decimal
  (lines 523-563); if the filter removed everything, the value of the
  middle element of the value-sorted weighted results (lines 565-568);
* 1-2 samples: plain weighted average (lines 570-574);
* 0 samples: the fixed fallback `35.0` (line 577). -/
def pingFinalValue (weightedResults : List WeightedSample) : ℚ :=
  if 3 ≤ weightedResults.length then
    let filteredPings := pingIQRFilter weightedResults
    if 0 < filteredPings.length then
      let weightedMean := sampleWeightedSum filteredPings / sampleWeightSum filteredPings
      let pingValues := pingSortedValues weightedResults
      let fastPings := (pingValues.filter (fun p => decide (p < 20))).length
      let slowPings := (pingValues.filter (fun p => decide (100 < p))).length
      let adjustedPing :=
        if ((pingValues.length : ℚ)) * (1 / 2) < (fastPings : ℚ) then
          weightedMean * (19 / 20)
        else if ((pingValues.length : ℚ)) * (3 / 10) < (slowPings : ℚ) then
          weightedMean * (21 / 20)
        else weightedMean
      toFixed1 adjustedPing
    else
      let sortedWeighted := sortByValue weightedResults
      toFixed1 ((sortedWeighted.getD (sortedWeighted.length / 2) ⟨0, 0⟩).value)
  else if 0 < weightedResults.length then
    toFixed1 (sampleWeightedSum weightedResults / sampleWeightSum weightedResults)
  else 35

/-- A JavaScript number that may be non-finite: result type of the final
throughput formula, where the elapsed time can be zero. -/
inductive JSNumV
  | nan
  | posInf
  | fin (q : ℚ)
deriving DecidableEq, Repr

/-- `(bytes / (elapsedMs / 1000) / (1024 * 1024)) * 8`, the final throughput
formula of lines 667-668 (download) and 768-769 (upload), under JavaScript
arithmetic for nonnegative finite `bytes`: if `elapsedMs = 0` the division
yields `NaN` (when `bytes = 0`) or `+Infinity` (when `bytes > 0`), and the
remaining operations preserve that; otherwise the value is finite. -/
def jsFinalSpeed (bytes elapsedMs : ℚ) : JSNumV :=
  if elapsedMs = 0 then
    (if bytes = 0 then JSNumV.nan else JSNumV.posInf)
  else
    JSNumV.fin (bytes / (elapsedMs / 1000) / (1024 * 1024) * 8)

/-- `x.toFixed(1)` applied to a possibly non-finite number and stored in a
metric state (lines 669 and 770): `NaN.toFixed(1) = "NaN"`,
`Infinity.toFixed(1) = "Infinity"`. -/
def jsToFixed1 : JSNumV → Metric
  | JSNumV.nan => Metric.nanStr
  | JSNumV.posInf => Metric.infStr
  | JSNumV.fin q => Metric.val (toFixed1 q)

/-! ### History store: load-time validation and repair (lines 133-192) -/

/-- A numeric field of a persisted history item as the code's checks see it:
`invalid` covers a missing field, a non-number value, and `NaN`
(`typeof item.x === 'number' && !isNaN(item.x)` is false); `num q` is a
finite number.  (`JSON.parse` cannot actually produce `NaN`, but the code
checks for it, so the constructor folds it into `invalid`.) -/
inductive JSNum
  | invalid
  | num (q : ℚ)
deriving DecidableEq, Repr

/-- A persisted history entry as parsed from `localStorage`; string fields
are `none` when absent. -/
structure StoredItem where
  id : Option String
  ping : JSNum
  download : JSNum
  upload : JSNum
  location : Option String
  provider : Option String
  ip : Option String
  timestamp : Option String
deriving DecidableEq, Repr

/-- JavaScript truthiness of a possibly-missing string: `undefined` and `""`
are falsy, every other string is truthy. -/
def truthyStr : Option String → Bool
  | none => false
  | some s => decide (s ≠ "")

/-- The string content (empty when the field is absent). -/
def getStr (o : Option String) : String := o.getD ""

/-- The validity test `typeof x === 'number' && !isNaN(x) && x > 0` used in the
ternaries of lines 150, 154, 158. -/
def validNum : JSNum → Bool
  | JSNum.invalid => false
  | JSNum.num q => decide (0 < q)

/-- `item.id || Date.now().toString() + Math.random()...` (line 147); the
freshly generated id is a parameter (nondeterministic in the source). -/
def repairId (freshId : String) (o : Option String) : String :=
  if truthyStr o then getStr o else freshId

/-- Ping repair (lines 150-152): a valid positive number is clamped to
`[1, 999]` via `Math.min(Math.max(ping, 1), 999)`; anything else becomes
the default 25. -/
def repairPing : JSNum → ℚ
  | JSNum.invalid => 25
  | JSNum.num q => if 0 < q then min (max q 1) 999 else 25

/-- Download/upload repair (lines 154-160): a valid positive number is raised
to at least 0.1 via `Math.max(x, 0.1)`; anything else becomes the stage
default (15 for download, 5 for upload), passed as `defaultVal`. -/
def repairThroughput (defaultVal : ℚ) : JSNum → ℚ
  | JSNum.invalid => defaultVal
  | JSNum.num q => if 0 < q then max q (1 / 10) else defaultVal

/-- Provider repair (lines 164-166): missing/empty/`"Unknown"`/`"Unknown ISP"`
becomes `"Your ISP"`. -/
def repairProvider (o : Option String) : String :=
  if truthyStr o = false ∨ getStr o = "Unknown" ∨ getStr o = "Unknown ISP" then
    "Your ISP"
  else getStr o

/-- Location repair (lines 168-170): missing/empty/`"Unknown"`/
`"Unknown, Unknown"` becomes `"Your Location"`. -/
def repairLocation (o : Option String) : String :=
  if truthyStr o = false ∨ getStr o = "Unknown" ∨ getStr o = "Unknown, Unknown" then
    "Your Location"
  else getStr o

/-- IP repair (lines 173-175): missing/empty/`"Unknown"` becomes
`"192.168.1.X"`. -/
def repairIp (o : Option String) : String :=
  if truthyStr o = false ∨ getStr o = "Unknown" then "192.168.1.X" else getStr o

/-- The per-item validation/repair of the history-load effect
(lines 140-177), producing a concrete `TestResult`.  `freshId` stands for the
generated `Date.now().toString() + Math.random()...` id and `nowTs` for
`new Date()` serialized; `item.timestamp ? new Date(item.timestamp) :
new Date()` is modelled as keeping the stored timestamp string when truthy
(serialization of a parsed date is treated as the identity on the stored
string). -/
def validatedItem (freshId nowTs : String) (item : StoredItem) : TestResult :=
  { id := repairId freshId item.id
    ping := repairPing item.ping
    download := repairThroughput 15 item.download
    upload := repairThroughput 5 item.upload
    location := repairLocation item.location
    provider := repairProvider item.provider
    ip := repairIp item.ip
    timestamp := if truthyStr item.timestamp then getStr item.timestamp else nowTs }

/-- Serialization of a repaired `TestResult` back to storage
(`JSON.stringify` on line 184): every field present, numbers finite. -/
def toStored (r : TestResult) : StoredItem :=
  { id := some r.id
    ping := JSNum.num r.ping
    download := JSNum.num r.download
    upload := JSNum.num r.upload
    location := some r.location
    provider := some r.provider
    ip := some r.ip
    timestamp := some r.timestamp }

/-! ### History append (lines 292-309) -/

/-- One append: `[newResult, ...testHistory].slice(0, 20)` (line 306). -/
def historyAppend (newResult : TestResult) (history : List TestResult) : List TestResult :=
  (newResult :: history).take 20

/-- A sequence of appends, oldest first. -/
def historyAppendAll (rs : List TestResult) (h : List TestResult) : List TestResult :=
  rs.foldl (fun acc r => historyAppend r acc) h

/-- `serverInfo.location === "Loading..." || === "Detecting..." ?
"Your Location" : serverInfo.location` (line 299). -/
def sanitizeLocation (si : ServerInfo) : String :=
  if si.location = "Loading..." ∨ si.location = "Detecting..." then "Your Location"
  else si.location

/-- Line 300: placeholder provider becomes `"Your ISP"`. -/
def sanitizeProvider (si : ServerInfo) : String :=
  if si.provider = "Loading..." ∨ si.provider = "Detecting..." then "Your ISP"
  else si.provider

/-- Line 301: placeholder ip becomes `"Your IP"`. -/
def sanitizeIp (si : ServerInfo) : String :=
  if si.ip = "Loading..." ∨ si.ip = "Detecting..." then "Your IP" else si.ip

/-- The `newResult` built by `saveTestToHistory` (lines 294-303).  Note the
numeric fields are the hardcoded literals `185`, `260`, `12` from the source,
not the measured values.  `now` stands for both `Date.now().toString()`
(the id) and `new Date()` (the timestamp). -/
def newResultOfRun (now : String) (si : ServerInfo) : TestResult :=
  { id := now
    ping := 185
    download := 260
    upload := 12
    location := sanitizeLocation si
    provider := sanitizeProvider si
    ip := sanitizeIp si
    timestamp := now }

/-- `saveTestToHistory` (lines 292-309): build the hardcoded result and
prepend-truncate. -/
def saveTestToHistory (now : String) (si : ServerInfo) (history : List TestResult) :
    List TestResult :=
  historyAppend (newResultOfRun now si) history

/-! ### Orchestrator state machine (`startTest`, lines 254-337) -/

/-- `setTestStatus`. -/
def setStatus (s : SessionState) (msg : String) : SessionState :=
  { s with testStatus := msg }

/-- `setPing`. -/
def setPingM (s : SessionState) (m : Metric) : SessionState :=
  { s with ping := m }

/-- `setDownloadSpeed`. -/
def setDl (s : SessionState) (m : Metric) : SessionState :=
  { s with downloadSpeed := m }

/-- `setUploadSpeed`. -/
def setUl (s : SessionState) (m : Metric) : SessionState :=
  { s with uploadSpeed := m }

/-- `setCurrentTest`. -/
def setCurrentTest (s : SessionState) (st : Stage) : SessionState :=
  { s with currentTest := st }

/-- `setTestHistory`. -/
def setTestHistory (s : SessionState) (h : List TestResult) : SessionState :=
  { s with testHistory := h }

/-- One iteration of the ping loop (lines 460-520).  The accumulator carries
the state, the collected `weightedResults`, and the attempt index `i`; an
attempt is `some sample` when the probe succeeded and `none` when it failed
(failed probes are dropped, line 514).  On success the stage progress
`(i+1)/numPings * 100` is pushed (lines 487-488) followed by the live
weighted average (lines 492-507); `numPings = 10` (line 371). -/
def pingAttemptStep (overallStart overallEnd : ℤ)
    (acc : SessionState × List WeightedSample × ℕ) (att : Option WeightedSample) :
    SessionState × List WeightedSample × ℕ :=
  let s := acc.1
  let collected := acc.2.1
  let i := acc.2.2
  let s := setStatus s ("Measuring network latency... (" ++ toString (i + 1) ++ "/10)")
  match att with
  | some sample =>
      let collected := collected ++ [sample]
      let s := { s with
        progress := updateOverallProgress overallStart overallEnd (((i : ℚ) + 1) / 10 * 100) }
      let s := setPingM s (Metric.val (toFixed1 (recencyWeightedAvg collected)))
      (s, collected, i + 1)
  | none =>
      let s := setStatus s ("Optimizing latency measurement... (" ++ toString (i + 1) ++ "/10)")
      (s, collected, i + 1)

/-- The status chosen by the quality assessment of lines 588-598.  It reads
`parseFloat(ping)` where `ping` is the stale closure value captured at
invocation; a non-numeric display string parses to `NaN` (every comparison
false, so the final `else`), and `"Infinity"` also falls through to the
final `else`. -/
def pingQualityStatus : Metric → String
  | Metric.val q =>
      if q < 20 then "Excellent ping detected! (< 20ms) 🏆"
      else if q < 50 then "Good ping detected! (< 50ms) ✅"
      else if q < 100 then "Average ping detected. (< 100ms) 📊"
      else "Higher ping detected. This may affect speed. 📡"
  | _ => "Higher ping detected. This may affect speed. 📡"

/-- `runPingTest` run to completion (lines 355-604): the initial
`setPing('185.0')` (line 357), the probe loop, the statistical block
(lines 522-578) publishing `pingFinalValue`, then the unconditional
`setPing('185.0')` override of line 582, and the transition statuses
(lines 585-603).  `snapshotPing` is the closure value of `ping` read by
line 589. -/
def runPingTestModel (overallStart overallEnd : ℤ) (attempts : List (Option WeightedSample))
    (snapshotPing : Metric) (s : SessionState) : SessionState :=
  let s := setPingM s (Metric.val 185)
  match attempts.foldl (pingAttemptStep overallStart overallEnd) (s, [], 0) with
  | (s, collected, _) =>
    let s := setPingM s (Metric.val (pingFinalValue collected))
    let s := setPingM s (Metric.val 185)
    let s := setStatus s "Connection quality: Good ✅"
    let s := setStatus s (pingQualityStatus snapshotPing)
    let s := setStatus s "Preparing download test... ⬇️"
    setStatus s "Starting download speed test... ⬇️"

/-- `runDownloadTest` run to completion (lines 607-686): status, the initial
`setDownloadSpeed('260.0')` (line 620), the read loop whose periodic live
writes are each overwritten by the final write of lines 667-669, the stage
progress forced to 100 (line 670), the unconditional `setDownloadSpeed('260.0')`
override of line 674, and the transition statuses. -/
def runDownloadTestModel (overallStart overallEnd : ℤ) (bytes elapsedMs : ℚ)
    (s : SessionState) : SessionState :=
  let s := setStatus s "Starting download speed test..."
  let s := setDl s (Metric.val 260)
  let s := setDl s (jsToFixed1 (jsFinalSpeed bytes elapsedMs))
  let s := { s with progress := updateOverallProgress overallStart overallEnd 100 }
  let s := setDl s (Metric.val 260)
  let s := setStatus s "Download complete! Preparing upload test... ⬆️"
  setStatus s "Starting upload speed test... ⬆️"

/-- `runUploadTest` run to completion (lines 689-780): status, the initial
`setUploadSpeed('12.0')` (line 707), the chunk loop whose periodic live writes
are each overwritten by the final write of lines 768-770, the stage progress
forced to 100 (line 771), the unconditional `setUploadSpeed('12.0')` override
of line 775, and the final status. -/
def runUploadTestModel (overallStart overallEnd : ℤ) (bytes elapsedMs : ℚ)
    (s : SessionState) : SessionState :=
  let s := setStatus s "Upload test in progress... 📤"
  let s := setUl s (Metric.val 12)
  let s := setUl s (jsToFixed1 (jsFinalSpeed bytes elapsedMs))
  let s := { s with progress := updateOverallProgress overallStart overallEnd 100 }
  let s := setUl s (Metric.val 12)
  setStatus s "Upload test complete! Finalizing results... ✨"

/-- Where (if anywhere) the run is interrupted.  Only the interruptions the
source can actually produce are represented:
* a probe failure while the main signal is aborted throws
  `new Error('AbortError')` from line 511 — but that error's `.name` is
  `"Error"`, so `startTest`'s catch treats it as a generic error;
* download abort/failure: the `fetch`/`read` of lines 622-631 rejects with a
  real `AbortError`, or a transport failure is rethrown as
  `Error('Download test failed')` (line 684);
* upload abort: the chunk `fetch` (line 728) rejects with a real `AbortError`
  (non-abort chunk failures are absorbed by the loop, lines 759-765). -/
inductive RunInterrupt
  | completes
  | pingAbortThrow
  | dlAbort
  | dlFail
  | ulAbort
deriving DecidableEq, Repr

/-- The environment of one run: the outcome of each ping attempt, the byte
counts and elapsed times of the two transfer stages, and the interruption
point. -/
structure RunEnv where
  pingAttempts : List (Option WeightedSample)
  dlBytes : ℚ
  dlElapsedMs : ℚ
  ulBytes : ℚ
  ulElapsedMs : ℚ
  interrupt : RunInterrupt
deriving Repr

/-- The unconditional entry block of `startTest` (lines 255-262): reset the
three metrics, progress and status, set the testing flag, and create a fresh
abort controller.  There is no check of `isTesting` or `currentTest`. -/
def startTestEntry (s0 : SessionState) : SessionState :=
  { s0 with
    ping := Metric.unset
    downloadSpeed := Metric.unset
    uploadSpeed := Metric.unset
    progress := 0
    testStatus := "Preparing your speed test... ✨"
    isTesting := true
    hasAbortController := true }

/-- The `error.name === 'AbortError'` branch of the catch (lines 316-322).
The `ping === '-'` checks read the stale closure values captured at
invocation, i.e. the fields of the snapshot `s0`. -/
def catchAbortBranch (s0 s : SessionState) : SessionState :=
  let s := setStatus s "Test stopped safely ✅"
  let s := { s with currentTest := Stage.idle }
  let s := if s0.ping = Metric.unset then setPingM s Metric.na else s
  let s := if s0.downloadSpeed = Metric.unset then setDl s Metric.na else s
  if s0.uploadSpeed = Metric.unset then setUl s Metric.na else s

/-- The generic-error branch of the catch (lines 323-331), marking unset
metrics with the error indicator `'--'`; same stale-closure reads. -/
def catchErrorBranch (s0 s : SessionState) : SessionState :=
  let s := setStatus s "Connection issue detected - no worries! 🔄"
  let s := { s with currentTest := Stage.idle }
  let s := if s0.ping = Metric.unset then setPingM s Metric.err else s
  let s := if s0.downloadSpeed = Metric.unset then setDl s Metric.err else s
  if s0.uploadSpeed = Metric.unset then setUl s Metric.err else s

/-- The `finally` block (lines 332-336): clear the testing flag and the abort
controller, force progress to 100. -/
def finallyBlock (s : SessionState) : SessionState :=
  { s with isTesting := false, hasAbortController := false, progress := 100 }

/-- The GO button (lines 1141-1148) is the only caller of `startTest`: it is
rendered only when `currentTest === "idle"` and carries
`disabled={isTesting}`. -/
def goButtonInvocable (s : SessionState) : Bool :=
  decide (s.currentTest = Stage.idle) && !s.isTesting

/-- `startTest` (lines 254-337) as a state transformer, with the network
behaviour supplied by `env`.  Stage progress ranges are the contract values
of lines 265-267: ping `[0,10]`, download `[10,60]`, upload `[60,100]`.
The success path ends with the forced `setPing('185.0')` /
`setDownloadSpeed('260.0')` / `setUploadSpeed('12.0')` of lines 287-289 and
the history append of `saveTestToHistory` (lines 292-312). -/
def startTestModel (si : ServerInfo) (now : String) (env : RunEnv)
    (s0 : SessionState) : SessionState :=
  let s := startTestEntry s0
  let s := setStatus s "Checking your connection quality... 🌐"
  let s := setCurrentTest s Stage.ping
  finallyBlock
    (match env.interrupt with
     | RunInterrupt.pingAbortThrow =>
        let s := setPingM s (Metric.val 185)
        (match env.pingAttempts.foldl (pingAttemptStep 0 10) (s, [], 0) with
         | (s, _, _) => catchErrorBranch s0 s)
     | RunInterrupt.dlAbort =>
        let s := runPingTestModel 0 10 env.pingAttempts s0.ping s
        let s := setCurrentTest s Stage.download
        let s := setStatus s "Starting download speed test..."
        let s := setDl s (Metric.val 260)
        catchAbortBranch s0 s
     | RunInterrupt.dlFail =>
        let s := runPingTestModel 0 10 env.pingAttempts s0.ping s
        let s := setCurrentTest s Stage.download
        let s := setStatus s "Starting download speed test..."
        let s := setDl s (Metric.val 260)
        catchErrorBranch s0 s
     | RunInterrupt.ulAbort =>
        let s := runPingTestModel 0 10 env.pingAttempts s0.ping s
        let s := setCurrentTest s Stage.download
        let s := runDownloadTestModel 10 60 env.dlBytes env.dlElapsedMs s
        let s := setCurrentTest s Stage.upload
        let s := setStatus s "Upload test in progress... 📤"
        let s := setUl s (Metric.val 12)
        catchAbortBranch s0 s
     | RunInterrupt.completes =>
        let s := runPingTestModel 0 10 env.pingAttempts s0.ping s
        let s := setCurrentTest s Stage.download
        let s := runDownloadTestModel 10 60 env.dlBytes env.dlElapsedMs s
        let s := setCurrentTest s Stage.upload
        let s := runUploadTestModel 60 100 env.ulBytes env.ulElapsedMs s
        let s := setStatus s "🎉 Speed test completed successfully!"
        let s := setCurrentTest s Stage.complete
        let s := setPingM s (Metric.val 185)
        let s := setDl s (Metric.val 260)
        let s := setUl s (Metric.val 12)
        setTestHistory s (saveTestToHistory now si s.testHistory))

/-! ### Concrete inputs used by the claim theorems -/

/-- A resolved (non-placeholder) server-info triple. -/
def sampleServer : ServerInfo :=
  { provider := "TestISP", location := "TestCity", ip := "1.2.3.4" }

/-- The spec's raw latency sample list `[10,12,11,300,13,9,14,11]`, paired
with the endpoint weights the code would assign to eight consecutive
successful attempts (weights cycle through 1.2, 1.0, 0.9, 0.8, 1.5, 0.7,
lines 361-368). -/
def c1Samples : List WeightedSample :=
  [⟨10, 6/5⟩, ⟨12, 1⟩, ⟨11, 9/10⟩, ⟨300, 4/5⟩, ⟨13, 3/2⟩, ⟨9, 7/10⟩, ⟨14, 6/5⟩, ⟨11, 1⟩]

/-- Ten ping attempts: eight successes with the sample list above, then two
failures. -/
def c1Attempts : List (Option WeightedSample) :=
  c1Samples.map some ++ [none, none]

/-- A run that completes: measured 10 MiB in 1 s of download (80.0 Mbps) and
1 MiB in 1 s of upload (8.0 Mbps). -/
def c1Env : RunEnv :=
  { pingAttempts := c1Attempts
    dlBytes := 10485760
    dlElapsedMs := 1000
    ulBytes := 1048576
    ulElapsedMs := 1000
    interrupt := RunInterrupt.completes }

/-- A run whose download stage is aborted by the cancellation signal. -/
def c2Env : RunEnv :=
  { pingAttempts := c1Attempts
    dlBytes := 0
    dlElapsedMs := 0
    ulBytes := 0
    ulElapsedMs := 0
    interrupt := RunInterrupt.dlAbort }

/-- The persisted entry of claim C6: `ping: -5`, `provider: "Unknown"`, the
other fields present and well-formed. -/
def c6BadItem : StoredItem :=
  { id := some "entry-1"
    ping := JSNum.num (-5)
    download := JSNum.num 50
    upload := JSNum.num 10
    location := some "Springfield"
    provider := some "Unknown"
    ip := some "10.0.0.1"
    timestamp := some "2024-01-01T00:00:00.000Z" }

/-- A thoroughly invalid persisted entry used to witness the C10 defaults:
negative ping, non-numeric download, zero upload, missing/empty/sentinel
strings. -/
def c10BadItem : StoredItem :=
  { id := none
    ping := JSNum.num (-5)
    download := JSNum.invalid
    upload := JSNum.num 0
    location := none
    provider := some "Unknown"
    ip := some ""
    timestamp := none }

/-- An active session mid-download, used to show `startTest` has no re-entry
guard. -/
def c9Active : SessionState :=
  { isTesting := true
    currentTest := Stage.download
    progress := 30
    testStatus := "Measuring download speed... 📊"
    ping := Metric.val 42
    downloadSpeed := Metric.val 50
    uploadSpeed := Metric.unset
    testHistory := []
    hasAbortController := true }

/-- Twenty-five distinct results to feed the history cap. -/
def c5Results : List TestResult :=
  (List.range 25).map (fun n =>
    { id := toString n
      ping := 20
      download := 100
      upload := 10
      location := "L"
      provider := "P"
      ip := "I"
      timestamp := "T" })

/-! ### Helper lemmas -/

theorem toFixed1_mono {x y : ℚ} (h : x ≤ y) : toFixed1 x ≤ toFixed1 y := by
  unfold toFixed1
  have hr : round (x * 10) ≤ round (y * 10) := by
    rw [round_eq, round_eq]
    exact Int.floor_le_floor (by linarith)
  have hc : ((round (x * 10) : ℤ) : ℚ) ≤ ((round (y * 10) : ℤ) : ℚ) := by exact_mod_cast hr
  linarith

theorem toFixed1_nonneg {x : ℚ} (h : 0 ≤ x) : 0 ≤ toFixed1 x := by
  have hm := toFixed1_mono h
  have h0 : toFixed1 0 = 0 := by simp [toFixed1]
  linarith

/-! ### Claim C4: the progress translator -/

/-- Claim C4: `overall(a,b,x) = round(a + (b-a) * x/100)` is monotone
non-decreasing in `x` for fixed `a < b`, and maps 0 to `a` and 100 to `b`. -/
theorem c4_overall_progress_monotone_endpoints (a b : ℤ) (x y : ℚ)
    (hab : a < b) (hxy : x ≤ y) :
    updateOverallProgress a b x ≤ updateOverallProgress a b y ∧
    updateOverallProgress a b 0 = a ∧ updateOverallProgress a b 100 = b := by
  have hba : (0 : ℚ) ≤ (b : ℚ) - (a : ℚ) := by
    have hq : (a : ℚ) < (b : ℚ) := by exact_mod_cast hab
    linarith
  refine ⟨?_, ?_, ?_⟩
  · unfold updateOverallProgress
    rw [round_eq, round_eq]
    apply Int.floor_le_floor
    have hmul : ((b : ℚ) - a) * (x / 100) ≤ ((b : ℚ) - a) * (y / 100) :=
      mul_le_mul_of_nonneg_left (by linarith) hba
    linarith
  · have h0 : (a : ℚ) + ((b : ℚ) - (a : ℚ)) * ((0 : ℚ) / 100) = ((a : ℤ) : ℚ) := by
      ring
    unfold updateOverallProgress
    rw [h0, round_intCast]
  · have h100 : (a : ℚ) + ((b : ℚ) - (a : ℚ)) * ((100 : ℚ) / 100) = ((b : ℤ) : ℚ) := by
      ring
    unfold updateOverallProgress
    rw [h100, round_intCast]

/-- Witness for C4 at the download stage bounds. -/
theorem c4_overall_progress_monotone_endpoints_witness :
    updateOverallProgress 10 60 20 ≤ updateOverallProgress 10 60 50 ∧
    updateOverallProgress 10 60 0 = 10 ∧ updateOverallProgress 10 60 100 = 60 :=
  c4_overall_progress_monotone_endpoints 10 60 20 50 (by norm_num) (by norm_num)

/-! ### Claim C7: final throughput formula -/

/-- Counterexample to claim C7: at the stopping instant with zero elapsed
time and zero bytes the code computes `0/0 = NaN` and displays
`NaN.toFixed(1) = "NaN"`; there is no guard that reports the prior estimate,
so the claimed "never NaN" fails. -/
theorem c7_zero_elapsed_final_speed_is_nan :
    jsFinalSpeed 0 0 = JSNumV.nan ∧ jsToFixed1 (jsFinalSpeed 0 0) = Metric.nanStr := by
  exact ⟨rfl, rfl⟩

/-- Claim C7 as amended: whenever the elapsed time at the stopping instant is
positive, the final reported throughput (for both download, lines 667-669,
and upload, lines 768-770, which use the identical formula) equals
`bytes / (elapsedMs/1000) / 2^20 * 8` rounded to one decimal, and is never
negative; there is no near-zero-elapsed guard in the code. -/
theorem c7_final_speed_amended (bytes elapsedMs : ℚ)
    (hb : 0 ≤ bytes) (he : 0 < elapsedMs) :
    jsFinalSpeed bytes elapsedMs =
      JSNumV.fin (bytes / (elapsedMs / 1000) / (1024 * 1024) * 8) ∧
    jsToFixed1 (jsFinalSpeed bytes elapsedMs) =
      Metric.val (toFixed1 (bytes / (elapsedMs / 1000) / (1024 * 1024) * 8)) ∧
    0 ≤ toFixed1 (bytes / (elapsedMs / 1000) / (1024 * 1024) * 8) := by
  have hne : elapsedMs ≠ 0 := ne_of_gt he
  have h1 : jsFinalSpeed bytes elapsedMs =
      JSNumV.fin (bytes / (elapsedMs / 1000) / (1024 * 1024) * 8) := by
    unfold jsFinalSpeed
    rw [if_neg hne]
  refine ⟨h1, by rw [h1]; rfl, toFixed1_nonneg ?_⟩
  have hpos : (0 : ℚ) < elapsedMs / 1000 := div_pos he (by norm_num)
  exact mul_nonneg (div_nonneg (div_nonneg hb (le_of_lt hpos)) (by norm_num)) (by norm_num)

/-- Witness for the amended C7: 1 MiB in 1 s is reported as 8.0 Mbps. -/
theorem c7_final_speed_amended_witness :
    jsFinalSpeed 1048576 1000 =
      JSNumV.fin (1048576 / (1000 / 1000) / (1024 * 1024) * 8) ∧
    jsToFixed1 (jsFinalSpeed 1048576 1000) =
      Metric.val (toFixed1 (1048576 / (1000 / 1000) / (1024 * 1024) * 8)) ∧
    0 ≤ toFixed1 ((1048576 : ℚ) / (1000 / 1000) / (1024 * 1024) * 8) :=
  c7_final_speed_amended 1048576 1000 (by norm_num) (by norm_num)

/-! ### Claim C9: no re-entry guard in startTest -/

/-- Counterexample to claim C9: invoking `startTest` while a run is active
(`isTesting = true`, mid-download, partial metrics) is neither a no-op nor
rejected — its unconditional entry block resets the active session's metrics
and progress and installs a fresh abort controller, so the active session's
state is disturbed and a second run begins. -/
theorem c9_start_while_active_disturbs_state :
    startTestEntry c9Active ≠ c9Active ∧
    (startTestEntry c9Active).isTesting = true ∧
    (startTestEntry c9Active).ping = Metric.unset := by
  refine ⟨?_, rfl, rfl⟩
  decide

/-- Claim C9 as amended: `startTest` itself has no guard — from any state its
entry block proceeds, resetting the metrics and starting a new run; a second
concurrent run is prevented only by the UI, whose GO button (the sole caller
of `startTest`) is invocable only when the session is idle and not testing. -/
theorem c9_no_internal_guard_amended (s : SessionState) :
    (goButtonInvocable s = true → s.isTesting = false) ∧
    (startTestEntry s).isTesting = true ∧
    (startTestEntry s).ping = Metric.unset ∧
    (startTestEntry s).downloadSpeed = Metric.unset ∧
    (startTestEntry s).uploadSpeed = Metric.unset ∧
    (startTestEntry s).hasAbortController = true := by
  refine ⟨?_, rfl, rfl, rfl, rfl, rfl⟩
  intro h
  simp only [goButtonInvocable, Bool.and_eq_true, Bool.not_eq_true', decide_eq_true_eq] at h
  exact h.2

/-- Witness for the amended C9 at the initial (idle) state. -/
theorem c9_no_internal_guard_amended_witness :
    initialState.isTesting = false ∧ (startTestEntry initialState).isTesting = true :=
  ⟨(c9_no_internal_guard_amended initialState).1 (by decide),
   (c9_no_internal_guard_amended initialState).2.1⟩

/-! ### Claim C5: history cap -/

theorem take_append_take {α : Type} (xs ys : List α) (n : ℕ) :
    (xs ++ ys.take n).take n = (xs ++ ys).take n := by
  rw [List.take_append_eq_append_take, List.take_append_eq_append_take, List.take_take]
  congr 1
  rw [Nat.min_eq_left (Nat.sub_le n xs.length)]

theorem historyAppendAll_eq (rs : List TestResult) :
    ∀ h : List TestResult, h.length ≤ 20 →
      historyAppendAll rs h = (rs.reverse ++ h).take 20 := by
  induction rs with
  | nil =>
      intro h hh
      simp only [historyAppendAll, List.foldl_nil, List.reverse_nil, List.nil_append]
      exact (List.take_of_length_le hh).symm
  | cons r rs ih =>
      intro h hh
      have hstep : historyAppendAll (r :: rs) h = historyAppendAll rs (historyAppend r h) := rfl
      have hlen : (historyAppend r h).length ≤ 20 := by
        simp only [historyAppend, List.length_take]
        exact Nat.min_le_left _ _
      rw [hstep, ih (historyAppend r h) hlen, historyAppend, take_append_take]
      congr 1
      simp

/-- Claim C5: each append prepends and truncates to 20, so after any sequence
of appends from a store holding at most 20 entries the store equals the most
recent 20 results in most-recent-first order; in particular after 25 appends
from empty it holds exactly 20. -/
theorem c5_history_capped_at_20 (rs h : List TestResult) (hh : h.length ≤ 20) :
    historyAppendAll rs h = (rs.reverse ++ h).take 20 ∧
    (historyAppendAll rs h).length ≤ 20 ∧
    (rs.length = 25 → h = [] →
      (historyAppendAll rs h).length = 20 ∧
      historyAppendAll rs h = rs.reverse.take 20) := by
  have heq := historyAppendAll_eq rs h hh
  refine ⟨heq, ?_, ?_⟩
  · rw [heq]
    simp only [List.length_take]
    exact Nat.min_le_left _ _
  · intro h25 hnil
    subst hnil
    constructor
    · rw [heq]
      simp [List.length_take, h25]
    · rw [heq]
      simp

/-- Witness for C5: 25 concrete appended results leave exactly 20 entries. -/
theorem c5_history_capped_at_20_witness :
    (historyAppendAll c5Results []).length = 20 :=
  ((c5_history_capped_at_20 c5Results [] (by simp)).2.2 (by simp [c5Results]) rfl).1

/-! ### Repair lemmas for the history-load validation -/

theorem repairPing_range (x : JSNum) : 1 ≤ repairPing x ∧ repairPing x ≤ 999 := by
  cases x with
  | invalid => norm_num [repairPing]
  | num q =>
      simp only [repairPing]
      split_ifs with h
      · exact ⟨le_min (le_max_right q 1) (by norm_num), min_le_right _ _⟩
      · norm_num

theorem repairPing_idem (x : JSNum) :
    repairPing (JSNum.num (repairPing x)) = repairPing x := by
  obtain ⟨h1, h2⟩ := repairPing_range x
  have h0 : (0 : ℚ) < repairPing x := by linarith
  show (if 0 < repairPing x then min (max (repairPing x) 1) 999 else 25) = repairPing x
  rw [if_pos h0, max_eq_left h1, min_eq_left h2]

theorem repairPing_default (x : JSNum) (h : validNum x = false) : repairPing x = 25 := by
  cases x with
  | invalid => rfl
  | num q =>
      have hq : ¬ (0 < q) := by simpa [validNum] using h
      simp [repairPing, hq]

theorem repairThroughput_ge (d : ℚ) (hd : 1 / 10 ≤ d) (x : JSNum) :
    1 / 10 ≤ repairThroughput d x := by
  cases x with
  | invalid => simpa [repairThroughput] using hd
  | num q =>
      simp only [repairThroughput]
      split_ifs with h
      · exact le_max_right _ _
      · exact hd

theorem repairThroughput_idem (d : ℚ) (hd : 1 / 10 ≤ d) (x : JSNum) :
    repairThroughput d (JSNum.num (repairThroughput d x)) = repairThroughput d x := by
  have h1 := repairThroughput_ge d hd x
  have h0 : (0 : ℚ) < repairThroughput d x := by linarith
  show (if 0 < repairThroughput d x then max (repairThroughput d x) (1 / 10) else d) = _
  rw [if_pos h0, max_eq_left h1]

theorem repairThroughput_default (d : ℚ) (x : JSNum) (h : validNum x = false) :
    repairThroughput d x = d := by
  cases x with
  | invalid => rfl
  | num q =>
      have hq : ¬ (0 < q) := by simpa [validNum] using h
      simp [repairThroughput, hq]

theorem getStr_ne_of_truthy {o : Option String} (h : truthyStr o = true) :
    getStr o ≠ "" := by
  cases o with
  | none => simp [truthyStr] at h
  | some s => simpa [truthyStr, getStr] using h

theorem truthy_of_ne_false {o : Option String} (h : ¬ truthyStr o = false) :
    truthyStr o = true := by
  rcases Bool.eq_false_or_eq_true (truthyStr o) with hb | hb
  · exact hb
  · exact absurd hb h

theorem repairId_ne {freshId : String} (hf : freshId ≠ "") (o : Option String) :
    repairId freshId o ≠ "" := by
  unfold repairId
  split_ifs with h
  · exact getStr_ne_of_truthy h
  · exact hf

theorem repairId_stable (f2 : String) {x : String} (hx : x ≠ "") :
    repairId f2 (some x) = x := by
  simp [repairId, truthyStr, getStr, hx]

theorem repairProvider_spec (o : Option String) :
    repairProvider o ≠ "" ∧ repairProvider o ≠ "Unknown" ∧
    repairProvider o ≠ "Unknown ISP" ∧
    repairProvider (some (repairProvider o)) = repairProvider o := by
  by_cases h : truthyStr o = false ∨ getStr o = "Unknown" ∨ getStr o = "Unknown ISP"
  · have he : repairProvider o = "Your ISP" := by
      unfold repairProvider
      rw [if_pos h]
    rw [he]
    exact ⟨by decide, by decide, by decide, by decide⟩
  · have he : repairProvider o = getStr o := by
      unfold repairProvider
      rw [if_neg h]
    push_neg at h
    obtain ⟨h1, h2, h3⟩ := h
    have ht := truthy_of_ne_false h1
    have hne : getStr o ≠ "" := getStr_ne_of_truthy ht
    rw [he]
    refine ⟨hne, h2, h3, ?_⟩
    unfold repairProvider
    rw [if_neg]
    · rfl
    · push_neg
      exact ⟨by simp [truthyStr, hne], by simpa [getStr] using h2, by simpa [getStr] using h3⟩

theorem repairLocation_spec (o : Option String) :
    repairLocation o ≠ "" ∧ repairLocation o ≠ "Unknown" ∧
    repairLocation o ≠ "Unknown, Unknown" ∧
    repairLocation (some (repairLocation o)) = repairLocation o := by
  by_cases h : truthyStr o = false ∨ getStr o = "Unknown" ∨ getStr o = "Unknown, Unknown"
  · have he : repairLocation o = "Your Location" := by
      unfold repairLocation
      rw [if_pos h]
    rw [he]
    exact ⟨by decide, by decide, by decide, by decide⟩
  · have he : repairLocation o = getStr o := by
      unfold repairLocation
      rw [if_neg h]
    push_neg at h
    obtain ⟨h1, h2, h3⟩ := h
    have ht := truthy_of_ne_false h1
    have hne : getStr o ≠ "" := getStr_ne_of_truthy ht
    rw [he]
    refine ⟨hne, h2, h3, ?_⟩
    unfold repairLocation
    rw [if_neg]
    · rfl
    · push_neg
      exact ⟨by simp [truthyStr, hne], by simpa [getStr] using h2, by simpa [getStr] using h3⟩

theorem repairIp_spec (o : Option String) :
    repairIp o ≠ "" ∧ repairIp o ≠ "Unknown" ∧
    repairIp (some (repairIp o)) = repairIp o := by
  by_cases h : truthyStr o = false ∨ getStr o = "Unknown"
  · have he : repairIp o = "192.168.1.X" := by
      unfold repairIp
      rw [if_pos h]
    rw [he]
    exact ⟨by decide, by decide, by decide⟩
  · have he : repairIp o = getStr o := by
      unfold repairIp
      rw [if_neg h]
    push_neg at h
    obtain ⟨h1, h2⟩ := h
    have ht := truthy_of_ne_false h1
    have hne : getStr o ≠ "" := getStr_ne_of_truthy ht
    rw [he]
    refine ⟨hne, h2, ?_⟩
    unfold repairIp
    rw [if_neg]
    · rfl
    · push_neg
      exact ⟨by simp [truthyStr, hne], by simpa [getStr] using h2⟩

/-! ### Claim C10: invariants of validated history entries -/

/-- Claim C10: every validated entry has ping in `[1, 999]`, download and
upload at least 0.1, and non-empty, non-"Unknown" provider, location and ip;
a numeric field failing `typeof number && !isNaN && > 0` receives the fixed
default (25 / 15 / 5) rather than a clamped stored value. -/
theorem c10_validated_entry_invariants (freshId nowTs : String) (item : StoredItem) :
    1 ≤ (validatedItem freshId nowTs item).ping ∧
    (validatedItem freshId nowTs item).ping ≤ 999 ∧
    1 / 10 ≤ (validatedItem freshId nowTs item).download ∧
    1 / 10 ≤ (validatedItem freshId nowTs item).upload ∧
    (validatedItem freshId nowTs item).provider ≠ "" ∧
    (validatedItem freshId nowTs item).provider ≠ "Unknown" ∧
    (validatedItem freshId nowTs item).location ≠ "" ∧
    (validatedItem freshId nowTs item).location ≠ "Unknown" ∧
    (validatedItem freshId nowTs item).ip ≠ "" ∧
    (validatedItem freshId nowTs item).ip ≠ "Unknown" ∧
    (validNum item.ping = false → (validatedItem freshId nowTs item).ping = 25) ∧
    (validNum item.download = false → (validatedItem freshId nowTs item).download = 15) ∧
    (validNum item.upload = false → (validatedItem freshId nowTs item).upload = 5) :=
  ⟨(repairPing_range item.ping).1, (repairPing_range item.ping).2,
   repairThroughput_ge 15 (by norm_num) item.download,
   repairThroughput_ge 5 (by norm_num) item.upload,
   (repairProvider_spec item.provider).1, (repairProvider_spec item.provider).2.1,
   (repairLocation_spec item.location).1, (repairLocation_spec item.location).2.1,
   (repairIp_spec item.ip).1, (repairIp_spec item.ip).2.1,
   fun h => repairPing_default item.ping h,
   fun h => repairThroughput_default 15 item.download h,
   fun h => repairThroughput_default 5 item.upload h⟩

/-- Witness for C10 on a fully invalid stored entry: the numeric fields get
the fixed defaults. -/
theorem c10_validated_entry_invariants_witness :
    (validatedItem "fresh-1" "2024-01-01" c10BadItem).ping = 25 ∧
    (validatedItem "fresh-1" "2024-01-01" c10BadItem).download = 15 ∧
    (validatedItem "fresh-1" "2024-01-01" c10BadItem).upload = 5 ∧
    1 ≤ (validatedItem "fresh-1" "2024-01-01" c10BadItem).ping :=
  ⟨(c10_validated_entry_invariants "fresh-1" "2024-01-01" c10BadItem).2.2.2.2.2.2.2.2.2.2.1
     (by decide),
   (c10_validated_entry_invariants "fresh-1" "2024-01-01" c10BadItem).2.2.2.2.2.2.2.2.2.2.2.1
     (by decide),
   (c10_validated_entry_invariants "fresh-1" "2024-01-01" c10BadItem).2.2.2.2.2.2.2.2.2.2.2.2
     (by decide),
   (c10_validated_entry_invariants "fresh-1" "2024-01-01" c10BadItem).1⟩

/-! ### Claim C6: repair of a bad entry, and idempotence of load/repair/save -/

/-- Claim C6: loading the persisted entry with `ping: -5` and
`provider: "Unknown"` repairs it to `ping ≥ 1` and a provider different from
`"Unknown"`, and one further load/repair/save cycle leaves any repaired entry
unchanged (the generated id and timestamp parameters are nonempty strings, as
`Date.now().toString()` and a serialized `Date` always are). -/
theorem c6_history_repair_idempotent (freshId nowTs freshId2 nowTs2 : String)
    (item : StoredItem) (hf : freshId ≠ "") (hn : nowTs ≠ "") :
    1 ≤ (validatedItem freshId nowTs c6BadItem).ping ∧
    (validatedItem freshId nowTs c6BadItem).provider ≠ "Unknown" ∧
    validatedItem freshId2 nowTs2 (toStored (validatedItem freshId nowTs item)) =
      validatedItem freshId nowTs item := by
  refine ⟨(repairPing_range c6BadItem.ping).1,
          (repairProvider_spec c6BadItem.provider).2.1, ?_⟩
  have hT : (if truthyStr item.timestamp then getStr item.timestamp else nowTs) ≠ "" := by
    split_ifs with h
    · exact getStr_ne_of_truthy h
    · exact hn
  simp only [validatedItem, toStored, TestResult.mk.injEq]
  refine ⟨?_, ?_, ?_, ?_, ?_, ?_, ?_, ?_⟩
  · exact repairId_stable freshId2 (repairId_ne hf item.id)
  · exact repairPing_idem item.ping
  · exact repairThroughput_idem 15 (by norm_num) item.download
  · exact repairThroughput_idem 5 (by norm_num) item.upload
  · exact (repairLocation_spec item.location).2.2.2
  · exact (repairProvider_spec item.provider).2.2.2
  · exact (repairIp_spec item.ip).2.2
  · exact repairId_stable nowTs2 hT

/-- Witness for C6 at concrete generated ids/timestamps and the C6 entry. -/
theorem c6_history_repair_idempotent_witness :
    1 ≤ (validatedItem "fresh-2" "2024-02-02T00:00:00.000Z" c6BadItem).ping ∧
    (validatedItem "fresh-2" "2024-02-02T00:00:00.000Z" c6BadItem).provider ≠ "Unknown" ∧
    validatedItem "fresh-3" "2024-03-03T00:00:00.000Z"
        (toStored (validatedItem "fresh-2" "2024-02-02T00:00:00.000Z" c6BadItem)) =
      validatedItem "fresh-2" "2024-02-02T00:00:00.000Z" c6BadItem :=
  c6_history_repair_idempotent "fresh-2" "2024-02-02T00:00:00.000Z"
    "fresh-3" "2024-03-03T00:00:00.000Z" c6BadItem (by decide) (by decide)

/-! ### State-projection and preservation lemmas for the orchestrator -/

theorem setStatus_testHistory (s : SessionState) (m : String) :
    (setStatus s m).testHistory = s.testHistory := rfl

theorem setPingM_testHistory (s : SessionState) (m : Metric) :
    (setPingM s m).testHistory = s.testHistory := rfl

theorem setDl_testHistory (s : SessionState) (m : Metric) :
    (setDl s m).testHistory = s.testHistory := rfl

theorem setUl_testHistory (s : SessionState) (m : Metric) :
    (setUl s m).testHistory = s.testHistory := rfl

theorem setCurrentTest_testHistory (s : SessionState) (st : Stage) :
    (setCurrentTest s st).testHistory = s.testHistory := rfl

theorem setTestHistory_testHistory (s : SessionState) (h : List TestResult) :
    (setTestHistory s h).testHistory = h := rfl

theorem startTestEntry_testHistory (s : SessionState) :
    (startTestEntry s).testHistory = s.testHistory := rfl

theorem finallyBlock_testHistory (s : SessionState) :
    (finallyBlock s).testHistory = s.testHistory := rfl

theorem runDownloadTestModel_testHistory (a b : ℤ) (x y : ℚ) (s : SessionState) :
    (runDownloadTestModel a b x y s).testHistory = s.testHistory := rfl

theorem runUploadTestModel_testHistory (a b : ℤ) (x y : ℚ) (s : SessionState) :
    (runUploadTestModel a b x y s).testHistory = s.testHistory := rfl

/-- No step of the ping probe loop touches the history store. -/
theorem pingFold_testHistory (a b : ℤ) (atts : List (Option WeightedSample)) :
    ∀ acc : SessionState × List WeightedSample × ℕ,
      (atts.foldl (pingAttemptStep a b) acc).1.testHistory = acc.1.testHistory := by
  induction atts with
  | nil => intro acc; rfl
  | cons att rest ih =>
      intro acc
      rw [List.foldl_cons, ih]
      rcases att with _ | sample <;> rfl

/-- The whole ping stage leaves the history store unchanged. -/
theorem runPingTestModel_testHistory (a b : ℤ) (atts : List (Option WeightedSample))
    (snap : Metric) (s : SessionState) :
    (runPingTestModel a b atts snap s).testHistory = s.testHistory := by
  simp only [runPingTestModel]
  rcases hfold : atts.foldl (pingAttemptStep a b) (setPingM s (Metric.val 185), [], 0)
    with ⟨s1, c1, i1⟩
  have hp := pingFold_testHistory a b atts (setPingM s (Metric.val 185), [], 0)
  rw [hfold] at hp
  exact hp

/-- Whatever the probes measured, the ping stage ends with the displayed
latency forced to the hardcoded `'185.0'` (the `setPing('185.0')` of
line 582 runs after the statistical block in every case). -/
theorem runPingTestModel_ping (a b : ℤ) (atts : List (Option WeightedSample))
    (snap : Metric) (s : SessionState) :
    (runPingTestModel a b atts snap s).ping = Metric.val 185 := by
  simp only [runPingTestModel]
  rcases hfold : atts.foldl (pingAttemptStep a b) (setPingM s (Metric.val 185), [], 0)
    with ⟨s1, c1, i1⟩
  rfl

theorem catchAbortBranch_currentTest (s0 s : SessionState) :
    (catchAbortBranch s0 s).currentTest = Stage.idle := by
  simp only [catchAbortBranch]
  split_ifs <;> rfl

theorem catchAbortBranch_testStatus (s0 s : SessionState) :
    (catchAbortBranch s0 s).testStatus = "Test stopped safely ✅" := by
  simp only [catchAbortBranch]
  split_ifs <;> rfl

theorem catchAbortBranch_uploadSpeed_na (s0 s : SessionState)
    (h : s0.uploadSpeed = Metric.unset) :
    (catchAbortBranch s0 s).uploadSpeed = Metric.na := by
  simp only [catchAbortBranch]
  rw [if_pos h]
  rfl

theorem catchAbortBranch_testHistory (s0 s : SessionState) :
    (catchAbortBranch s0 s).testHistory = s.testHistory := by
  simp only [catchAbortBranch]
  split_ifs <;> rfl

/-- A run whose download stage is aborted ends in `idle` with the abort
status, the upload metric (never set, by the stale-closure check) marked
`'N/A'`, and an untouched history store. -/
theorem startTestModel_dlAbort_spec (si : ServerInfo) (now : String) (env : RunEnv)
    (s0 : SessionState) (h : env.interrupt = RunInterrupt.dlAbort) :
    (startTestModel si now env s0).currentTest = Stage.idle ∧
    (startTestModel si now env s0).testStatus = "Test stopped safely ✅" ∧
    (s0.uploadSpeed = Metric.unset →
      (startTestModel si now env s0).uploadSpeed = Metric.na) ∧
    (startTestModel si now env s0).testHistory = s0.testHistory := by
  obtain ⟨atts, db, de, ub, ue, intr⟩ := env
  change intr = RunInterrupt.dlAbort at h
  subst h
  simp only [startTestModel]
  refine ⟨catchAbortBranch_currentTest _ _, catchAbortBranch_testStatus _ _,
    fun hu => catchAbortBranch_uploadSpeed_na _ _ hu, ?_⟩
  rw [finallyBlock_testHistory, catchAbortBranch_testHistory, setDl_testHistory,
    setStatus_testHistory, setCurrentTest_testHistory, runPingTestModel_testHistory,
    setCurrentTest_testHistory, setStatus_testHistory, startTestEntry_testHistory]

/-- A run that completes performs exactly the history append of
`saveTestToHistory` and nothing else touches the store. -/
theorem startTestModel_completes_history (si : ServerInfo) (now : String) (env : RunEnv)
    (s0 : SessionState) (h : env.interrupt = RunInterrupt.completes) :
    (startTestModel si now env s0).testHistory =
      saveTestToHistory now si s0.testHistory := by
  obtain ⟨atts, db, de, ub, ue, intr⟩ := env
  change intr = RunInterrupt.completes at h
  subst h
  simp only [startTestModel]
  rw [finallyBlock_testHistory, setTestHistory_testHistory]
  congr 1
  rw [setUl_testHistory, setDl_testHistory, setPingM_testHistory, setCurrentTest_testHistory,
    setStatus_testHistory, runUploadTestModel_testHistory, setCurrentTest_testHistory,
    runDownloadTestModel_testHistory, setCurrentTest_testHistory,
    runPingTestModel_testHistory, setCurrentTest_testHistory, setStatus_testHistory,
    startTestEntry_testHistory]

/-! ### Evaluation lemmas for the spec's latency sample list -/

/-- Evaluate `toFixed1` once the integer `round` value is known. -/
theorem toFixed1_eval (x : ℚ) (z : ℤ) (h1 : (z : ℚ) ≤ x * 10 + 1 / 2)
    (h2 : x * 10 + 1 / 2 < z + 1) : toFixed1 x = (z : ℚ) / 10 := by
  have hz : round (x * 10) = z := by
    rw [round_eq]
    exact Int.floor_eq_iff.mpr ⟨h1, h2⟩
  rw [toFixed1, hz]

theorem sortAsc_c3sample :
    sortAsc [10, 12, 11, 300, 13, 9, 14, 11] = [9, 10, 11, 11, 12, 13, 14, 300] := by
  norm_num [sortAsc, insertAsc]

theorem pingSortedValues_c3sample (w1 w2 w3 w4 w5 w6 w7 w8 : ℚ) :
    pingSortedValues [⟨10, w1⟩, ⟨12, w2⟩, ⟨11, w3⟩, ⟨300, w4⟩,
      ⟨13, w5⟩, ⟨9, w6⟩, ⟨14, w7⟩, ⟨11, w8⟩] = [9, 10, 11, 11, 12, 13, 14, 300] := by
  show sortAsc [10, 12, 11, 300, 13, 9, 14, 11] = _
  exact sortAsc_c3sample

theorem pingLowerBound_c3sample (w1 w2 w3 w4 w5 w6 w7 w8 : ℚ) :
    pingLowerBound [⟨10, w1⟩, ⟨12, w2⟩, ⟨11, w3⟩, ⟨300, w4⟩,
      ⟨13, w5⟩, ⟨9, w6⟩, ⟨14, w7⟩, ⟨11, w8⟩] = 13 / 2 := by
  rw [pingLowerBound, pingSortedValues_c3sample]
  norm_num [List.getD]

theorem pingUpperBound_c3sample (w1 w2 w3 w4 w5 w6 w7 w8 : ℚ) :
    pingUpperBound [⟨10, w1⟩, ⟨12, w2⟩, ⟨11, w3⟩, ⟨300, w4⟩,
      ⟨13, w5⟩, ⟨9, w6⟩, ⟨14, w7⟩, ⟨11, w8⟩] = 37 / 2 := by
  rw [pingUpperBound, pingSortedValues_c3sample]
  norm_num [List.getD]

/-- On the spec's sample list the IQR filter keeps every sample except the
one with value 300 (bounds `[6.5, 18.5]`), independently of the weights. -/
theorem pingIQRFilter_c3sample (w1 w2 w3 w4 w5 w6 w7 w8 : ℚ) :
    pingIQRFilter [⟨10, w1⟩, ⟨12, w2⟩, ⟨11, w3⟩, ⟨300, w4⟩,
      ⟨13, w5⟩, ⟨9, w6⟩, ⟨14, w7⟩, ⟨11, w8⟩] =
    [⟨10, w1⟩, ⟨12, w2⟩, ⟨11, w3⟩, ⟨13, w5⟩, ⟨9, w6⟩, ⟨14, w7⟩, ⟨11, w8⟩] := by
  rw [pingIQRFilter]
  rw [pingLowerBound_c3sample, pingUpperBound_c3sample]
  norm_num [List.filter]

/-- On the spec's sample list the aggregator takes the `≥ 3`-samples path
with a non-empty filter result, 7 of 8 raw samples below 20 ms (so the wired
`× 0.95` adjustment fires), and produces the rounded adjusted weighted mean
of the non-outlier samples. -/
theorem pingFinalValue_c3sample (w1 w2 w3 w4 w5 w6 w7 w8 : ℚ) :
    pingFinalValue [⟨10, w1⟩, ⟨12, w2⟩, ⟨11, w3⟩, ⟨300, w4⟩,
      ⟨13, w5⟩, ⟨9, w6⟩, ⟨14, w7⟩, ⟨11, w8⟩] =
    toFixed1 ((10 * w1 + (12 * w2 + (11 * w3 + (13 * w5 +
        (9 * w6 + (14 * w7 + (11 * w8 + 0))))))) /
      (w1 + (w2 + (w3 + (w5 + (w6 + (w7 + (w8 + 0))))))) * (19 / 20)) := by
  norm_num [pingFinalValue, pingIQRFilter_c3sample, pingSortedValues_c3sample,
    sampleWeightedSum, sampleWeightSum, List.filter]

/-! ### Claim C3: the IQR filter and the adjusted estimate -/

/-- Claim C3: for the raw sample list `[10,12,11,300,13,9,14,11]` with any
positive probe weights, the IQR filter removes exactly the value 300 before
weighting, and the resulting latency estimate lies within the range
`[9, 14]` of the surviving samples multiplied by the `0.95` adjustment
factor that this sample distribution selects. -/
theorem c3_iqr_filter_excludes_outlier (w1 w2 w3 w4 w5 w6 w7 w8 : ℚ)
    (hw1 : 0 < w1) (hw2 : 0 < w2) (hw3 : 0 < w3) (hw4 : 0 < w4)
    (hw5 : 0 < w5) (hw6 : 0 < w6) (hw7 : 0 < w7) (hw8 : 0 < w8) :
    (pingIQRFilter [⟨10, w1⟩, ⟨12, w2⟩, ⟨11, w3⟩, ⟨300, w4⟩,
        ⟨13, w5⟩, ⟨9, w6⟩, ⟨14, w7⟩, ⟨11, w8⟩]).map (fun s => s.value) =
      [10, 12, 11, 13, 9, 14, 11] ∧
    9 * (19 / 20) ≤ pingFinalValue [⟨10, w1⟩, ⟨12, w2⟩, ⟨11, w3⟩, ⟨300, w4⟩,
        ⟨13, w5⟩, ⟨9, w6⟩, ⟨14, w7⟩, ⟨11, w8⟩] ∧
    pingFinalValue [⟨10, w1⟩, ⟨12, w2⟩, ⟨11, w3⟩, ⟨300, w4⟩,
        ⟨13, w5⟩, ⟨9, w6⟩, ⟨14, w7⟩, ⟨11, w8⟩] ≤ 14 * (19 / 20) := by
  have hval := pingFinalValue_c3sample w1 w2 w3 w4 w5 w6 w7 w8
  have hD : (0 : ℚ) < w1 + (w2 + (w3 + (w5 + (w6 + (w7 + (w8 + 0)))))) := by linarith
  have hge : (9 : ℚ) ≤ (10 * w1 + (12 * w2 + (11 * w3 + (13 * w5 +
      (9 * w6 + (14 * w7 + (11 * w8 + 0))))))) /
      (w1 + (w2 + (w3 + (w5 + (w6 + (w7 + (w8 + 0))))))) := by
    rw [le_div_iff hD]
    linarith
  have hle : (10 * w1 + (12 * w2 + (11 * w3 + (13 * w5 +
      (9 * w6 + (14 * w7 + (11 * w8 + 0))))))) /
      (w1 + (w2 + (w3 + (w5 + (w6 + (w7 + (w8 + 0))))))) ≤ 14 := by
    rw [div_le_iff hD]
    linarith
  refine ⟨by rw [pingIQRFilter_c3sample]; rfl, ?_, ?_⟩
  · rw [hval]
    have ha : (171 / 20 : ℚ) ≤ (10 * w1 + (12 * w2 + (11 * w3 + (13 * w5 +
        (9 * w6 + (14 * w7 + (11 * w8 + 0))))))) /
        (w1 + (w2 + (w3 + (w5 + (w6 + (w7 + (w8 + 0))))))) * (19 / 20) := by
      linarith
    have hb := toFixed1_mono ha
    have hc : toFixed1 (171 / 20 : ℚ) = 86 / 10 := by
      rw [toFixed1_eval (171 / 20 : ℚ) 86 (by norm_num) (by norm_num)]
      norm_num
    linarith
  · rw [hval]
    have ha : (10 * w1 + (12 * w2 + (11 * w3 + (13 * w5 +
        (9 * w6 + (14 * w7 + (11 * w8 + 0))))))) /
        (w1 + (w2 + (w3 + (w5 + (w6 + (w7 + (w8 + 0))))))) * (19 / 20) ≤ 133 / 10 := by
      linarith
    have hb := toFixed1_mono ha
    have hc : toFixed1 (133 / 10 : ℚ) = 133 / 10 := by
      rw [toFixed1_eval (133 / 10 : ℚ) 133 (by norm_num) (by norm_num)]
      norm_num
    linarith

/-- Witness for C3 with the endpoint weights the code assigns to eight
consecutive successful probes. -/
theorem c3_iqr_filter_excludes_outlier_witness :
    (pingIQRFilter [⟨10, 6/5⟩, ⟨12, 1⟩, ⟨11, 9/10⟩, ⟨300, 4/5⟩,
        ⟨13, 3/2⟩, ⟨9, 7/10⟩, ⟨14, 6/5⟩, ⟨11, 1⟩]).map (fun s => s.value) =
      [10, 12, 11, 13, 9, 14, 11] ∧
    9 * (19 / 20) ≤ pingFinalValue [⟨10, 6/5⟩, ⟨12, 1⟩, ⟨11, 9/10⟩, ⟨300, 4/5⟩,
        ⟨13, 3/2⟩, ⟨9, 7/10⟩, ⟨14, 6/5⟩, ⟨11, 1⟩] ∧
    pingFinalValue [⟨10, 6/5⟩, ⟨12, 1⟩, ⟨11, 9/10⟩, ⟨300, 4/5⟩,
        ⟨13, 3/2⟩, ⟨9, 7/10⟩, ⟨14, 6/5⟩, ⟨11, 1⟩] ≤ 14 * (19 / 20) :=
  c3_iqr_filter_excludes_outlier (6/5) 1 (9/10) (4/5) (3/2) (7/10) (6/5) 1
    (by norm_num) (by norm_num) (by norm_num) (by norm_num)
    (by norm_num) (by norm_num) (by norm_num) (by norm_num)

/-! ### Claim C1: what a completed run appends to history -/

/-- Claim C1 (code bug): a completed run performs exactly one history append,
but the appended entry carries the hardcoded `ping := 185`,
`download := 260`, `upload := 12` of lines 294-298 — not the measured final
values.  For the concrete run `c1Env` the measured finals are 11.1 ms
(`pingFinalValue` on the probes), 80.0 Mbps down and 8.0 Mbps up, all of
which differ from the stored constants. -/
theorem c1_complete_run_appends_constants :
    (startTestModel sampleServer "t0" c1Env initialState).testHistory =
      [newResultOfRun "t0" sampleServer] ∧
    (newResultOfRun "t0" sampleServer).ping = 185 ∧
    (newResultOfRun "t0" sampleServer).download = 260 ∧
    (newResultOfRun "t0" sampleServer).upload = 12 ∧
    pingFinalValue c1Samples = 111 / 10 ∧
    jsToFixed1 (jsFinalSpeed c1Env.dlBytes c1Env.dlElapsedMs) = Metric.val 80 ∧
    jsToFixed1 (jsFinalSpeed c1Env.ulBytes c1Env.ulElapsedMs) = Metric.val 8 ∧
    (111 / 10 : ℚ) ≠ 185 ∧ (80 : ℚ) ≠ 260 ∧ (8 : ℚ) ≠ 12 := by
  refine ⟨?_, rfl, rfl, rfl, ?_, ?_, ?_, by norm_num, by norm_num, by norm_num⟩
  · rw [startTestModel_completes_history sampleServer "t0" c1Env initialState rfl]
    rfl
  · have hv : pingFinalValue c1Samples = toFixed1 ((133 : ℚ) / 12) := by
      rw [show c1Samples = [⟨10, 6/5⟩, ⟨12, 1⟩, ⟨11, 9/10⟩, ⟨300, 4/5⟩,
        ⟨13, 3/2⟩, ⟨9, 7/10⟩, ⟨14, 6/5⟩, ⟨11, 1⟩] from rfl, pingFinalValue_c3sample]
      norm_num
    rw [hv, toFixed1_eval ((133 : ℚ) / 12) 111 (by norm_num) (by norm_num)]
    norm_num
  · have hd : jsFinalSpeed c1Env.dlBytes c1Env.dlElapsedMs = JSNumV.fin 80 := by
      rw [show c1Env.dlBytes = (10485760 : ℚ) from rfl,
        show c1Env.dlElapsedMs = (1000 : ℚ) from rfl]
      unfold jsFinalSpeed
      rw [if_neg (by norm_num : (1000 : ℚ) ≠ 0)]
      norm_num
    rw [hd]
    show Metric.val (toFixed1 80) = Metric.val 80
    rw [toFixed1_eval (80 : ℚ) 800 (by norm_num) (by norm_num)]
    norm_num
  · have hu : jsFinalSpeed c1Env.ulBytes c1Env.ulElapsedMs = JSNumV.fin 8 := by
      rw [show c1Env.ulBytes = (1048576 : ℚ) from rfl,
        show c1Env.ulElapsedMs = (1000 : ℚ) from rfl]
      unfold jsFinalSpeed
      rw [if_neg (by norm_num : (1000 : ℚ) ≠ 0)]
      norm_num
    rw [hu]
    show Metric.val (toFixed1 8) = Metric.val 8
    rw [toFixed1_eval (8 : ℚ) 80 (by norm_num) (by norm_num)]
    norm_num

/-! ### Claim C2: cancellation during the download stage -/

/-- Counterexample to claim C2 as stated: the code's state space
(`Stage`, the union type of line 22) has no `Aborted` value at all; a run
whose download stage is cancelled ends with `currentTest = "idle"` — the very
same `Idle` state as before the run — so the session does not transition to a
distinct Aborted state. -/
theorem c2_abort_download_reaches_idle_not_aborted :
    (startTestModel sampleServer "t0" c2Env initialState).currentTest = Stage.idle ∧
    initialState.currentTest = Stage.idle :=
  ⟨(startTestModel_dlAbort_spec sampleServer "t0" c2Env initialState rfl).1, rfl⟩

/-- Claim C2 as amended: if cancellation fires while the Download stage is
running, the session ends in `"idle"` (there is no distinct Aborted state)
with the calm abort status `"Test stopped safely ✅"`, the Upload metric —
never set during the run — is marked `'N/A'`, and no History Store append
occurs. -/
theorem c2_abort_download_amended (si : ServerInfo) (now : String) (env : RunEnv)
    (s0 : SessionState) (hint : env.interrupt = RunInterrupt.dlAbort)
    (hu : s0.uploadSpeed = Metric.unset) :
    (startTestModel si now env s0).currentTest = Stage.idle ∧
    (startTestModel si now env s0).testStatus = "Test stopped safely ✅" ∧
    (startTestModel si now env s0).uploadSpeed = Metric.na ∧
    (startTestModel si now env s0).testHistory = s0.testHistory :=
  ⟨(startTestModel_dlAbort_spec si now env s0 hint).1,
   (startTestModel_dlAbort_spec si now env s0 hint).2.1,
   (startTestModel_dlAbort_spec si now env s0 hint).2.2.1 hu,
   (startTestModel_dlAbort_spec si now env s0 hint).2.2.2⟩

/-- Witness for the amended C2 on the concrete aborted run `c2Env` from the
initial state. -/
theorem c2_abort_download_amended_witness :
    (startTestModel sampleServer "t1" c2Env initialState).currentTest = Stage.idle ∧
    (startTestModel sampleServer "t1" c2Env initialState).testStatus =
      "Test stopped safely ✅" ∧
    (startTestModel sampleServer "t1" c2Env initialState).uploadSpeed = Metric.na ∧
    (startTestModel sampleServer "t1" c2Env initialState).testHistory =
      initialState.testHistory :=
  c2_abort_download_amended sampleServer "t1" c2Env initialState rfl rfl

/-! ### Claim C8: the zero-successful-probes fallback -/

/-- Claim C8 (code bug): with zero successful probes the aggregator computes
the documented fallback `35.0` (line 577), but the ping stage then
unconditionally overwrites the reported latency with the hardcoded `'185.0'`
(line 582), so the value the stage reports is 185, not the fallback.
(It is still a plain nonnegative number, never NaN.) -/
theorem c8_zero_probes_fallback_overridden :
    pingFinalValue [] = 35 ∧
    (runPingTestModel 0 10 (List.replicate 10 none) Metric.unset
        (startTestEntry initialState)).ping = Metric.val 185 ∧
    (35 : ℚ) ≠ 185 :=
  ⟨rfl, runPingTestModel_ping 0 10 (List.replicate 10 none) Metric.unset
      (startTestEntry initialState), by norm_num⟩
